import Mathlib

/-!
Shallow embedding of the audio-session core of `src/script.js` (basslab1.5):
a knob-controlled sine generator with a fixed low-pass filter, a fixed test
tone, soft-stop scheduling and panic stop.

Modelling conventions:
* JS numbers are modelled as rationals (ℚ); `Math.round` is `jsRound`
  (floor of x + 1/2, which is exactly JS `Math.round` semantics).
* Audio nodes are records of the attributes the script sets on them; each
  scheduled parameter automation call is logged as an event in the node's
  event list, in call order.
* The host audio engine supplies `ctx.currentTime` and the current value of
  `gain.gain.value`; these are passed in as explicit arguments (`now`,
  `curVal`).  The possibility that the engine throws during soft-stop
  scheduling (the `try`/`catch` in `softStopNode`) is an explicit Boolean
  argument.
* `osc.onended` callbacks are closures over the script's top-level mutable
  variables; they are modelled as an inductive `EndCb` of the three closures
  the script creates, and `fireCb` performs their effect on the global state.
  When a node variable is overwritten while its old oscillator still has a
  pending `onended`, that callback is kept in an `orphans` list (the real
  oscillator object still exists and its callback can still fire).
* All functions are total: no operation of the script throws on its own
  (out-of-range or redundant requests are clamped or no-ops).
-/

namespace Basslab

/-- A scheduled automation call on a gain node's `gain` AudioParam,
in the order the script issues them. -/
inductive GainEvent where
  | cancelScheduledValues (t : ℚ)
  | setValueAtTime (v t : ℚ)
  | linearRampToValueAtTime (v t : ℚ)
  deriving DecidableEq, Repr

/-- A scheduled automation call on an oscillator's `frequency` AudioParam. -/
inductive FreqEvent where
  | setTargetAtTime (v t timeConstant : ℚ)
  deriving DecidableEq, Repr

/-- The three `onended` / `onDone` closures the script creates.  Each acts on
the script's top-level variables, not on captured copies. -/
inductive EndCb where
  | genRelease
  | testRelease
  | testNaturalEnd
  deriving DecidableEq, Repr

/-- An oscillator node with the attributes the script sets. -/
structure OscNode where
  waveType : String
  freqValue : ℚ
  freqEvents : List FreqEvent
  started : Bool
  stopTime : Option ℚ
  onended : Option EndCb
  connected : List String
  deriving DecidableEq, Repr

/-- A gain node: its logged `gain` automation events and connection. -/
structure GainNode where
  events : List GainEvent
  connected : List String
  deriving DecidableEq, Repr

/-- A biquad filter node with the attributes the script sets. -/
structure FilterNode where
  filterType : String
  freqValue : ℚ
  qValue : ℚ
  connected : List String
  deriving DecidableEq, Repr

/-- The script's top-level mutable state: the audio context (modelled by
whether it exists), the generator and test-tone node variables, the two
running flags, the stored knob frequency, the body `active-audio` class, and
the pending `onended` callbacks of oscillators no longer referenced by a
variable. -/
structure State where
  audioContext : Bool
  genOsc : Option OscNode
  genGain : Option GainNode
  genLPF : Option FilterNode
  genRunning : Bool
  testOsc : Option OscNode
  testGain : Option GainNode
  testRunning : Bool
  currentHz : ℤ
  activeAudio : Bool
  orphans : List EndCb
  deriving DecidableEq, Repr

/-- Observable actions, used to state ordering properties: a soft-stop
request for a source, node allocation for a source, oscillator start. -/
inductive Action where
  | stopRequested (src : String)
  | allocated (src : String)
  | oscStarted (src : String)
  deriving DecidableEq, Repr

/-- JS `Math.round`: round half toward positive infinity. -/
def jsRound (q : ℚ) : ℤ := ⌊q + 1/2⌋

/-- Constant `MIN_HZ = 20`. -/
def MIN_HZ : ℤ := 20

/-- Constant `MAX_HZ = 120`. -/
def MAX_HZ : ℤ := 120

/-- Spec-side clamp, for stating `clamp(round(v), 20, 120)`. -/
def clamp (lo hi x : ℤ) : ℤ := max lo (min hi x)

/-- Function `hzToAngle`: map Hz in [20,120] linearly to the knob angle in
[-135, 135]. -/
def hzToAngle (hz : ℚ) : ℚ :=
  ((hz - (MIN_HZ : ℚ)) / ((MAX_HZ : ℚ) - (MIN_HZ : ℚ))) * 270 + (-135)

/-- Function `angleToHz`: clamp the angle to [-135,135], map linearly back
to Hz and round to the nearest integer (JS `Math.round`). -/
def angleToHz (angle : ℚ) : ℤ :=
  let a := max (-135) (min 135 angle)
  let t := (a + 135) / 270
  jsRound ((MIN_HZ : ℚ) + t * ((MAX_HZ : ℚ) - (MIN_HZ : ℚ)))

/-- Function `softStopNode(ctx, osc, gain, onDone)`.  On success: cancel scheduled
gain values at `now`, pin the gain at its current value `curVal`, ramp
linearly to 0 at `now + 0.06`, schedule `osc.stop(now + 0.07)` and install
the callback as the oscillator's `onended`.  If the engine throws
(`fail = true`) nothing is scheduled and the caller must run the callback
immediately.  Returns (osc, gain, callback-ran-immediately). -/
def softStopNode (now curVal : ℚ) (fail : Bool) (osc : OscNode)
    (gain : GainNode) (cb : EndCb) : OscNode × GainNode × Bool :=
  if fail then (osc, gain, true)
  else
    ({ osc with stopTime := some (now + 7/100), onended := some cb },
     { gain with events := gain.events ++
        [GainEvent.cancelScheduledValues now,
         GainEvent.setValueAtTime curVal now,
         GainEvent.linearRampToValueAtTime 0 (now + 6/100)] },
     false)

/-- Function `stopGenerator()`: no-op unless `genRunning && audioContext && genOsc
&& genGain`; otherwise clear `genRunning`, soft-stop the generator (the
`onDone` closure nulls `genOsc`, `genGain`, `genLPF`), and remove the
`active-audio` class. -/
def stopGenerator (now curVal : ℚ) (fail : Bool) (s : State) :
    State × List Action :=
  match s.genRunning, s.audioContext, s.genOsc, s.genGain with
  | true, true, some osc, some gain =>
    let r := softStopNode now curVal fail osc gain EndCb.genRelease
    let s1 := { s with genRunning := false }
    let s2 :=
      if r.2.2 then
        { s1 with genOsc := none, genGain := none, genLPF := none }
      else
        { s1 with genOsc := some r.1, genGain := some r.2.1 }
    ({ s2 with activeAudio := false }, [Action.stopRequested "generator"])
  | _, _, _, _ => (s, [])

/-- Function `stopAllAudio()` (panic stop): return if no context; soft-stop the
generator if `genRunning && genOsc && genGain`, soft-stop the test tone if
`testRunning && testOsc && testGain` (its `onDone` closure nulls only the
test node variables), then remove the `active-audio` class. -/
def stopAllAudio (now curG curT : ℚ) (failG failT : Bool) (s : State) :
    State × List Action :=
  if s.audioContext = false then (s, [])
  else
    let p1 : State × List Action :=
      match s.genRunning, s.genOsc, s.genGain with
      | true, some osc, some gain =>
        let r := softStopNode now curG failG osc gain EndCb.genRelease
        let t := { s with genRunning := false }
        (if r.2.2 then
            { t with genOsc := none, genGain := none, genLPF := none }
          else
            { t with genOsc := some r.1, genGain := some r.2.1 },
         [Action.stopRequested "generator"])
      | _, _, _ => (s, [])
    let s1 := p1.1
    let p2 : State × List Action :=
      match s1.testRunning, s1.testOsc, s1.testGain with
      | true, some osc, some gain =>
        let r := softStopNode now curT failT osc gain EndCb.testRelease
        let t := { s1 with testRunning := false }
        (if r.2.2 then { t with testOsc := none, testGain := none }
          else { t with testOsc := some r.1, testGain := some r.2.1 },
         [Action.stopRequested "test"])
      | _, _, _ => (s1, [])
    ({ p2.1 with activeAudio := false }, p1.2 ++ p2.2)

/-- The pending `onended` of an oscillator variable being overwritten; the
real oscillator object survives, so its callback joins the orphan list. -/
def orphanOf (o : Option OscNode) : List EndCb :=
  match o with
  | some osc => osc.onended.toList
  | none => []

/-- Function `startGenerator()`: return if `genRunning`; call `stopAllAudio()` if
`testRunning`; ensure the context; allocate oscillator (sine, frequency
`currentHz`) → low-pass filter (120 Hz, Q 0.707) → gain → destination; gain
starts at 0 and ramps linearly to 0.25 at `now + 0.08`; set `genRunning`
and the `active-audio` class.  (`curT`, `failT` feed the inner
`stopAllAudio`; its generator branch is dead since `genRunning` is false.) -/
def startGenerator (now curT : ℚ) (failT : Bool) (s : State) :
    State × List Action :=
  if s.genRunning then (s, [])
  else
    let p1 : State × List Action :=
      if s.testRunning then stopAllAudio now 0 curT false failT s else (s, [])
    let s2 := { p1.1 with audioContext := true }
    let osc : OscNode :=
      { waveType := "sine", freqValue := (s2.currentHz : ℚ), freqEvents := [],
        started := true, stopTime := none, onended := none,
        connected := ["genLPF"] }
    let gain : GainNode :=
      { events := [GainEvent.setValueAtTime 0 now,
                   GainEvent.linearRampToValueAtTime (1/4) (now + 2/25)],
        connected := ["destination"] }
    let lpf : FilterNode :=
      { filterType := "lowpass", freqValue := 120, qValue := 707/1000,
        connected := ["genGain"] }
    ({ s2 with genOsc := some osc, genGain := some gain, genLPF := some lpf,
               genRunning := true, activeAudio := true,
               orphans := s2.orphans ++ orphanOf s2.genOsc },
     p1.2 ++ [Action.allocated "generator", Action.oscStarted "generator"])

/-- Function `playTestTone()`: return if `testRunning`; call `stopGenerator()` if
`genRunning`; ensure the context; allocate oscillator (sine, 3030 Hz) →
gain → destination; gain starts at 0, ramps linearly to 0.20 at
`now + 0.08`, is pinned at 0.20 at `now + 8.8` and ramps to 0 at `now + 9`;
`osc.stop(now + 9)` is scheduled and `onended` is set to the natural-end
closure (clear `testRunning`, null the test nodes, drop the class). -/
def playTestTone (now curG : ℚ) (failG : Bool) (s : State) :
    State × List Action :=
  if s.testRunning then (s, [])
  else
    let p1 : State × List Action :=
      if s.genRunning then stopGenerator now curG failG s else (s, [])
    let s2 := { p1.1 with audioContext := true }
    let osc : OscNode :=
      { waveType := "sine", freqValue := 3030, freqEvents := [],
        started := true, stopTime := some (now + 9),
        onended := some EndCb.testNaturalEnd, connected := ["testGain"] }
    let gain : GainNode :=
      { events := [GainEvent.setValueAtTime 0 now,
                   GainEvent.linearRampToValueAtTime (1/5) (now + 2/25),
                   GainEvent.setValueAtTime (1/5) (now + 44/5),
                   GainEvent.linearRampToValueAtTime 0 (now + 9)],
        connected := ["destination"] }
    ({ s2 with testOsc := some osc, testGain := some gain,
               testRunning := true, activeAudio := true,
               orphans := s2.orphans ++ orphanOf s2.testOsc },
     p1.2 ++ [Action.allocated "test", Action.oscStarted "test"])

/-- Function `setHz(hz)`: store `max(MIN_HZ, min(MAX_HZ, Math.round(hz)))`; if the
generator is running (`genRunning && audioContext && genOsc`), retarget the
live oscillator frequency with `setTargetAtTime(currentHz, now, 0.02)`. -/
def setHz (hz now : ℚ) (s : State) : State :=
  let newHz : ℤ := max MIN_HZ (min MAX_HZ (jsRound hz))
  let s1 := { s with currentHz := newHz }
  if s1.genRunning && s1.audioContext && s1.genOsc.isSome then
    { s1 with genOsc := s1.genOsc.map (fun o =>
        { o with freqEvents := o.freqEvents ++
            [FreqEvent.setTargetAtTime (newHz : ℚ) now (1/50)] }) }
  else s1

/-- Run one of the three `onended`/`onDone` closures on the global state. -/
def fireCb (cb : EndCb) (s : State) : State :=
  match cb with
  | EndCb.genRelease => { s with genOsc := none, genGain := none, genLPF := none }
  | EndCb.testRelease => { s with testOsc := none, testGain := none }
  | EndCb.testNaturalEnd =>
      { s with testRunning := false, testOsc := none, testGain := none,
               activeAudio := false }

/-- Events of an execution: the four public calls, a knob update, and the
asynchronous completion signals the audio engine can deliver (the `onended`
of the current generator oscillator, of the current test oscillator, or of
an orphaned oscillator). -/
inductive Ev where
  | startGen (now curT : ℚ) (failT : Bool)
  | stopGen (now curVal : ℚ) (failG : Bool)
  | playTest (now curG : ℚ) (failG : Bool)
  | panic (now curG curT : ℚ) (failG failT : Bool)
  | setFreq (hz now : ℚ)
  | fireGenEnded
  | fireTestEnded
  | fireOrphan (i : ℕ)
  deriving DecidableEq, Repr

/-- One step of the event system. -/
def step (s : State) (e : Ev) : State :=
  match e with
  | Ev.startGen now curT failT => (startGenerator now curT failT s).1
  | Ev.stopGen now curVal failG => (stopGenerator now curVal failG s).1
  | Ev.playTest now curG failG => (playTestTone now curG failG s).1
  | Ev.panic now curG curT failG failT => (stopAllAudio now curG curT failG failT s).1
  | Ev.setFreq hz now => setHz hz now s
  | Ev.fireGenEnded =>
      match s.genOsc with
      | some o =>
          match o.onended with
          | some cb => fireCb cb s
          | none => s
      | none => s
  | Ev.fireTestEnded =>
      match s.testOsc with
      | some o =>
          match o.onended with
          | some cb => fireCb cb s
          | none => s
      | none => s
  | Ev.fireOrphan i =>
      match s.orphans[i]? with
      | some cb => { fireCb cb s with orphans := s.orphans.eraseIdx i }
      | none => s

/-- The state at page load: no context, no nodes, flags down, `currentHz = 30`
(the initial `setHz(currentHz)` call leaves it at 30). -/
def initState : State :=
  { audioContext := false, genOsc := none, genGain := none, genLPF := none,
    genRunning := false, testOsc := none, testGain := none,
    testRunning := false, currentHz := 30, activeAudio := false,
    orphans := [] }

/-- Whether an event is one of the four public calls (start generator, stop
generator, play test tone, panic). -/
def isCall : Ev → Bool
  | Ev.startGen _ _ _ => true
  | Ev.stopGen _ _ _ => true
  | Ev.playTest _ _ _ => true
  | Ev.panic _ _ _ _ _ => true
  | _ => false

/-- Mutual exclusion of the two sources: `genRunning` and `testRunning` are
never both set. -/
def mutualExclusion (s : State) : Bool := !(s.genRunning && s.testRunning)

/-- Inductive invariant carried through call sequences: mutual exclusion,
and each running flag implies the context and its node variables exist. -/
def callInv (s : State) : Bool :=
  !(s.genRunning && s.testRunning) &&
  (!s.genRunning || (s.audioContext && s.genOsc.isSome && s.genGain.isSome)) &&
  (!s.testRunning || (s.audioContext && s.testOsc.isSome && s.testGain.isSome))

/-- The three gain automation calls a soft stop appends, for stating the
soft-stop schedule: cancel at `now`, pin the current value at `now`, ramp
linearly to 0 at `now + 0.06` (60 ms). -/
def softStopEvents (now curVal : ℚ) : List GainEvent :=
  [GainEvent.cancelScheduledValues now,
   GainEvent.setValueAtTime curVal now,
   GainEvent.linearRampToValueAtTime 0 (now + 6/100)]

/-- Concrete generator oscillator, as `startGenerator` builds it at
`currentHz = 30`. -/
def oscSample : OscNode :=
  { waveType := "sine", freqValue := 30, freqEvents := [], started := true,
    stopTime := none, onended := none, connected := ["genLPF"] }

/-- Concrete generator gain node. -/
def gainSample : GainNode :=
  { events := [], connected := ["destination"] }

/-- Concrete generator low-pass filter node. -/
def lpfSample : FilterNode :=
  { filterType := "lowpass", freqValue := 120, qValue := 707/1000,
    connected := ["genGain"] }

/-- Concrete test-tone oscillator. -/
def testOscSample : OscNode :=
  { waveType := "sine", freqValue := 3030, freqEvents := [], started := true,
    stopTime := some 9, onended := some EndCb.testNaturalEnd,
    connected := ["testGain"] }

/-- Concrete test-tone gain node. -/
def testGainSample : GainNode :=
  { events := [], connected := ["destination"] }

/-- A concrete state with the generator active. -/
def genActiveState : State :=
  { audioContext := true, genOsc := some oscSample, genGain := some gainSample,
    genLPF := some lpfSample, genRunning := true, testOsc := none,
    testGain := none, testRunning := false, currentHz := 30,
    activeAudio := true, orphans := [] }

/-- A concrete state with the test tone active. -/
def testActiveState : State :=
  { audioContext := true, genOsc := none, genGain := none, genLPF := none,
    genRunning := false, testOsc := some testOscSample,
    testGain := some testGainSample, testRunning := true, currentHz := 30,
    activeAudio := true, orphans := [] }

/-! ### Helper lemmas -/

lemma callInv_stopGenerator (now curVal : ℚ) (f : Bool) (s : State)
    (h : callInv s = true) : callInv (stopGenerator now curVal f s).1 = true := by
  obtain ⟨ctx, go, gg, gl, gr, tosc, tgn, tr, hz, aa, orp⟩ := s
  cases gr <;> cases ctx <;> cases tr <;> cases f <;>
    rcases go with _ | o <;> rcases gg with _ | g <;>
    simp_all [stopGenerator, softStopNode, callInv]

lemma callInv_stopAllAudio (now cG cT : ℚ) (fG fT : Bool) (s : State)
    (h : callInv s = true) : callInv (stopAllAudio now cG cT fG fT s).1 = true := by
  obtain ⟨ctx, go, gg, gl, gr, tosc, tgn, tr, hz, aa, orp⟩ := s
  cases gr <;> cases ctx <;> cases tr <;> cases fG <;> cases fT <;>
    rcases go with _ | o <;> rcases gg with _ | g <;>
    rcases tosc with _ | o2 <;> rcases tgn with _ | g2 <;>
    simp_all [stopAllAudio, softStopNode, callInv]

lemma callInv_startGenerator (now curT : ℚ) (fT : Bool) (s : State)
    (h : callInv s = true) : callInv (startGenerator now curT fT s).1 = true := by
  obtain ⟨ctx, go, gg, gl, gr, tosc, tgn, tr, hz, aa, orp⟩ := s
  cases gr <;> cases ctx <;> cases tr <;> cases fT <;>
    rcases go with _ | o <;> rcases gg with _ | g <;>
    rcases tosc with _ | o2 <;> rcases tgn with _ | g2 <;>
    simp_all [startGenerator, stopAllAudio, softStopNode, callInv, orphanOf]

lemma callInv_playTestTone (now curG : ℚ) (fG : Bool) (s : State)
    (h : callInv s = true) : callInv (playTestTone now curG fG s).1 = true := by
  obtain ⟨ctx, go, gg, gl, gr, tosc, tgn, tr, hz, aa, orp⟩ := s
  cases gr <;> cases ctx <;> cases tr <;> cases fG <;>
    rcases go with _ | o <;> rcases gg with _ | g <;>
    rcases tosc with _ | o2 <;> rcases tgn with _ | g2 <;>
    simp_all [playTestTone, stopGenerator, softStopNode, callInv, orphanOf]

lemma callInv_call_step (s : State) (e : Ev) (hc : isCall e = true)
    (h : callInv s = true) : callInv (step s e) = true := by
  cases e with
  | startGen now curT fT => exact callInv_startGenerator now curT fT s h
  | stopGen now curVal fG => exact callInv_stopGenerator now curVal fG s h
  | playTest now curG fG => exact callInv_playTestTone now curG fG s h
  | panic now curG curT fG fT => exact callInv_stopAllAudio now curG curT fG fT s h
  | setFreq hz now => simp [isCall] at hc
  | fireGenEnded => simp [isCall] at hc
  | fireTestEnded => simp [isCall] at hc
  | fireOrphan i => simp [isCall] at hc

lemma callInv_foldl (l : List Ev) : ∀ s : State,
    (∀ e ∈ l, isCall e = true) → callInv s = true →
    callInv (l.foldl step s) = true := by
  induction l with
  | nil => intro s _ h; simpa using h
  | cons e t ih =>
    intro s hall h
    simp only [List.foldl_cons]
    exact ih (step s e)
      (fun x hx => hall x (List.mem_cons_of_mem e hx))
      (callInv_call_step s e (hall e (List.mem_cons_self e t)) h)

lemma mutualExclusion_of_callInv (s : State) (h : callInv s = true) :
    mutualExclusion s = true := by
  unfold callInv at h
  unfold mutualExclusion
  simp only [Bool.and_eq_true] at h
  exact h.1.1

lemma jsRound_intCast (z : ℤ) : jsRound ((z : ℚ)) = z := by
  unfold jsRound
  rw [add_comm, Int.floor_add_int]
  norm_num

lemma jsRound_half (k : ℤ) : jsRound ((k : ℚ) + 1/2) = k + 1 := by
  have h : (k : ℚ) + 1/2 + 1/2 = ((k + 1 : ℤ) : ℚ) := by push_cast; ring
  unfold jsRound
  rw [h, Int.floor_intCast]

/-- Claim C4 core lemma: `setHz` always stores the clamped rounding, whatever branch the
generator update takes. -/
lemma setHz_currentHz (hz now : ℚ) (s : State) :
    (setHz hz now s).currentHz = clamp MIN_HZ MAX_HZ (jsRound hz) := by
  cases hb : (s.genRunning && s.audioContext && s.genOsc.isSome) with
  | false => simp [setHz, clamp, hb]
  | true => simp [setHz, clamp, hb]

/-! ### C1: mutual exclusion of the two sources -/

/-- Claim C1: at most one sound source is active at any observed instant.  For
every sequence of `startGenerator`, `stopGenerator`, `playTestTone` and
panic (`stopAllAudio`) calls — an arbitrary interleaving `pre ++ suf` of the
four calls with arbitrary times, gain readings and scheduling-failure
outcomes — the state observed after any prefix `pre` (so every intermediate
and final state of the sequence) never has `genRunning` and `testRunning`
both true. -/
theorem spec_c1_mutual_exclusion (pre suf : List Ev)
    (h : ∀ e ∈ pre ++ suf, isCall e = true) :
    mutualExclusion (pre.foldl step initState) = true := by
  apply mutualExclusion_of_callInv
  exact callInv_foldl pre initState
    (fun e he => h e (List.mem_append_left suf he)) rfl

/-- Claim C1 witness: a concrete interleaving of the four calls; the state after
the two-call prefix has at most one source active. -/
theorem spec_c1_mutual_exclusion_witness :
    mutualExclusion (List.foldl step initState
      [Ev.startGen 0 0 false, Ev.playTest 1 (1/4) false]) = true :=
  spec_c1_mutual_exclusion
    [Ev.startGen 0 0 false, Ev.playTest 1 (1/4) false]
    [Ev.panic 2 0 (1/5) false false]
    (by intro e he; simp at he
        rcases he with h1 | h1 | h1 <;> subst h1 <;> rfl)

/-! ### C4: setHz stores clamp(round(v), 20, 120) -/

/-- Claim C4: for every requested value `v` (modelled as a rational, the JS number
type), `setHz(v)` stores exactly `clamp(round(v), 20, 120)` with JS
`Math.round`; in particular `setHz(15)` stores 20, `setHz(125)` stores 120
and `setHz(73.6)` stores 74.  `setHz` is a total function, so no request
raises an error. -/
theorem spec_c4_setHz_clamps_rounds (v now : ℚ) (s : State) :
    (setHz v now s).currentHz = clamp 20 120 (jsRound v) ∧
    (setHz 15 now s).currentHz = 20 ∧
    (setHz 125 now s).currentHz = 120 ∧
    (setHz (368/5) now s).currentHz = 74 := by
  have h15 : jsRound (15 : ℚ) = 15 := by
    have := jsRound_intCast 15; norm_num at this ⊢; exact this
  have h125 : jsRound (125 : ℚ) = 125 := by
    have := jsRound_intCast 125; norm_num at this ⊢; exact this
  have h736 : jsRound (368/5 : ℚ) = 74 := by unfold jsRound; norm_num
  refine ⟨setHz_currentHz v now s, ?_, ?_, ?_⟩ <;>
    rw [setHz_currentHz] <;> simp [clamp, MIN_HZ, MAX_HZ, h15, h125, h736]

/-! ### C5: hzToAngle and angleToHz are mutual inverses -/

/-- Claim C5: for every integer frequency in [20, 120] (the stored frequency is
always an integer in that range), mapping to a knob angle and back returns
the same frequency: `angleToHz (hzToAngle hz) = hz`. -/
theorem spec_c5_angle_hz_inverse (hz : ℤ) (h1 : 20 ≤ hz) (h2 : hz ≤ 120) :
    angleToHz (hzToAngle (hz : ℚ)) = hz := by
  have hq1 : (20 : ℚ) ≤ (hz : ℚ) := by exact_mod_cast h1
  have hq2 : ((hz : ℚ)) ≤ 120 := by exact_mod_cast h2
  unfold angleToHz hzToAngle MIN_HZ MAX_HZ
  push_cast
  have hnum : ((120 : ℚ) - 20) = 100 := by norm_num
  have ht0 : (0 : ℚ) ≤ ((hz : ℚ) - 20) / 100 := by
    apply div_nonneg <;> linarith
  have ht1 : ((hz : ℚ) - 20) / 100 ≤ 1 := by
    rw [div_le_one (by norm_num : (0:ℚ) < 100)]; linarith
  rw [hnum]
  have hge : (-135 : ℚ) ≤ ((hz : ℚ) - 20) / 100 * 270 + (-135) := by nlinarith
  have hle : ((hz : ℚ) - 20) / 100 * 270 + (-135) ≤ 135 := by nlinarith
  rw [min_eq_right hle, max_eq_right hge]
  have harg : (20 : ℚ) + (((hz : ℚ) - 20) / 100 * 270 + (-135) + 135) / 270 * 100
      = ((hz : ℚ)) := by field_simp; ring
  rw [harg, jsRound_intCast]

/-- Claim C5 witness: the round trip at the concrete frequency 30. -/
theorem spec_c5_angle_hz_inverse_witness : angleToHz (hzToAngle ((30 : ℤ) : ℚ)) = 30 :=
  spec_c5_angle_hz_inverse 30 (by norm_num) (by norm_num)

/-! ### C10: rounding ties go toward positive infinity -/

/-- Claim C10: JS `Math.round` rounds ties toward positive infinity, so for every
value with fractional part exactly one half, `setHz` rounds up before
clamping: `setHz(k + 1/2)` stores `clamp(k + 1, 20, 120)`; in particular
`setHz(73.5)` stores 74 and `setHz(20.5)` stores 21.  The same half-up rule
applies to `angleToHz`: the angle `-2673/20` maps to 20.5 Hz before
rounding and `angleToHz` returns 21. -/
theorem spec_c10_round_half_up (k : ℤ) (now : ℚ) (s : State) :
    (setHz ((k : ℚ) + 1/2) now s).currentHz = clamp 20 120 (k + 1) ∧
    (setHz (147/2) now s).currentHz = 74 ∧
    (setHz (41/2) now s).currentHz = 21 ∧
    angleToHz (-2673/20) = 21 := by
  have hk : jsRound ((k : ℚ) + 1/2) = k + 1 := jsRound_half k
  have h735 : jsRound (147/2 : ℚ) = 74 := by unfold jsRound; norm_num
  have h205 : jsRound (41/2 : ℚ) = 21 := by unfold jsRound; norm_num
  refine ⟨?_, ?_, ?_, ?_⟩
  · rw [setHz_currentHz, hk]; rfl
  · rw [setHz_currentHz, h735]; rfl
  · rw [setHz_currentHz, h205]; rfl
  · unfold angleToHz MIN_HZ MAX_HZ jsRound
    norm_num

/-! ### C2: the soft-stop sequence of the generator -/

/-- Claim C2: stopping the generator from the active state, explicitly
(`stopGenerator`) or via panic (`stopAllAudio`), schedules the soft-stop
sequence on the generator gain: cancel pending automation at `now`, pin the
current value `curVal` at `now`, ramp linearly to 0 at `now + 0.06` (a 60 ms
ramp), and schedules `osc.stop` at `now + 0.07` (10 ms after the ramp ends)
with the release closure as `onended`; `genRunning` is cleared and the
`active-audio` indicator dropped, and when the halt completion signal fires
(`Ev.fireGenEnded`) the oscillator, gain and filter references are all
released and the session is idle. -/
theorem spec_c2_soft_stop_sequence (now curVal curT : ℚ) (s : State)
    (osc : OscNode) (gain : GainNode)
    (hr : s.genRunning = true) (hc : s.audioContext = true)
    (ho : s.genOsc = some osc) (hg : s.genGain = some gain) :
    ((stopGenerator now curVal false s).1.genGain =
      some { gain with events := gain.events ++ softStopEvents now curVal }) ∧
    ((stopGenerator now curVal false s).1.genOsc =
      some { osc with stopTime := some (now + 7/100),
                      onended := some EndCb.genRelease }) ∧
    ((stopGenerator now curVal false s).1.genRunning = false) ∧
    ((stopGenerator now curVal false s).1.activeAudio = false) ∧
    ((step (stopGenerator now curVal false s).1 Ev.fireGenEnded).genOsc = none ∧
     (step (stopGenerator now curVal false s).1 Ev.fireGenEnded).genGain = none ∧
     (step (stopGenerator now curVal false s).1 Ev.fireGenEnded).genLPF = none ∧
     (step (stopGenerator now curVal false s).1 Ev.fireGenEnded).genRunning = false) ∧
    ((stopAllAudio now curVal curT false false s).1.genGain =
      some { gain with events := gain.events ++ softStopEvents now curVal }) ∧
    ((stopAllAudio now curVal curT false false s).1.genOsc =
      some { osc with stopTime := some (now + 7/100),
                      onended := some EndCb.genRelease }) ∧
    ((stopAllAudio now curVal curT false false s).1.genRunning = false) := by
  obtain ⟨ctx, go, gg, gl, gr, tosc, tgn, tr, hz, aa, orp⟩ := s
  simp only at hr hc ho hg
  subst hr hc ho hg
  cases tr <;> rcases tosc with _ | o2 <;> rcases tgn with _ | g2 <;>
    simp [stopGenerator, stopAllAudio, softStopNode, softStopEvents, step, fireCb]

/-- Claim C2 witness: stopping the concrete active generator clears the flag,
and the completion signal releases the oscillator reference. -/
theorem spec_c2_soft_stop_sequence_witness :
    genActiveState.genRunning = true ∧
    (stopGenerator 0 (1/4) false genActiveState).1.genRunning = false ∧
    (step (stopGenerator 0 (1/4) false genActiveState).1 Ev.fireGenEnded).genOsc
      = none := by
  have h := spec_c2_soft_stop_sequence 0 (1/4) 0 genActiveState oscSample
    gainSample rfl rfl rfl rfl
  obtain ⟨h1, h2, h3, h4, ⟨h5, h6, h7, h8⟩, h9, h10, h11⟩ := h
  exact ⟨rfl, h3, h5⟩

/-! ### C3: scheduling failure still forces Idle -/

/-- Claim C3: if soft-stop scheduling fails (the engine throws, modelled
with the failure flag true), the release callback runs immediately, so every
stop path still ends with the session idle and nothing held: `stopGenerator`
on an active generator leaves all three generator references null,
`genRunning` false and the `active-audio` indicator cleared; `stopAllAudio`
(under the reachable-state invariant `callInv`) leaves both running flags
false, the indicator cleared, and the references of whichever source was
running null. -/
theorem spec_c3_fail_forces_idle (now curG curT : ℚ) (s : State)
    (osc : OscNode) (gain : GainNode)
    (hinv : callInv s = true) (hc : s.audioContext = true) :
    (s.genRunning = true → s.genOsc = some osc → s.genGain = some gain →
      ((stopGenerator now curG true s).1.genOsc = none ∧
       (stopGenerator now curG true s).1.genGain = none ∧
       (stopGenerator now curG true s).1.genLPF = none ∧
       (stopGenerator now curG true s).1.genRunning = false ∧
       (stopGenerator now curG true s).1.activeAudio = false)) ∧
    ((stopAllAudio now curG curT true true s).1.genRunning = false ∧
     (stopAllAudio now curG curT true true s).1.testRunning = false ∧
     (stopAllAudio now curG curT true true s).1.activeAudio = false) ∧
    (s.genRunning = true →
      ((stopAllAudio now curG curT true true s).1.genOsc = none ∧
       (stopAllAudio now curG curT true true s).1.genGain = none ∧
       (stopAllAudio now curG curT true true s).1.genLPF = none)) ∧
    (s.testRunning = true →
      ((stopAllAudio now curG curT true true s).1.testOsc = none ∧
       (stopAllAudio now curG curT true true s).1.testGain = none)) := by
  obtain ⟨ctx, go, gg, gl, gr, tosc, tgn, tr, hz, aa, orp⟩ := s
  simp only at hc
  subst hc
  cases gr <;> cases tr <;>
    rcases go with _ | o <;> rcases gg with _ | g <;>
    rcases tosc with _ | o2 <;> rcases tgn with _ | g2 <;>
    simp_all [stopGenerator, stopAllAudio, softStopNode, callInv]

/-- Claim C3 witness: the failing stop of the concrete active generator
releases the oscillator immediately and the panic path ends not running. -/
theorem spec_c3_fail_forces_idle_witness :
    callInv genActiveState = true ∧
    (stopGenerator 0 (1/4) true genActiveState).1.genOsc = none ∧
    (stopAllAudio 0 (1/4) (1/5) true true genActiveState).1.genRunning
      = false := by
  have h := spec_c3_fail_forces_idle 0 (1/4) (1/5) genActiveState oscSample
    gainSample rfl rfl
  exact ⟨rfl, (h.1 rfl rfl rfl).1, h.2.1.1⟩

/-! ### C6: the test tone and its auto-release -/

/-- Claim C6: playing the test tone from idle allocates a sine oscillator
fixed at 3030 Hz connected through a gain to the destination; the gain
starts at 0, ramps linearly to 0.20 at `now + 0.08` (80 ms), is pinned at
0.20 at `now + 8.8` and ramps back to 0 at `now + 9`; the oscillator is
scheduled to stop at `now + 9`, and on the end-of-playback notification
(`Ev.fireTestEnded`) the source auto-releases — `testRunning` cleared, both
test references null, `active-audio` cleared — returning the session to
idle with no explicit stop call. -/
theorem spec_c6_test_tone (now curG : ℚ) (fG : Bool) (s : State)
    (ht : s.testRunning = false) (hg : s.genRunning = false) :
    ((playTestTone now curG fG s).1.testOsc =
      some { waveType := "sine", freqValue := 3030, freqEvents := [],
             started := true, stopTime := some (now + 9),
             onended := some EndCb.testNaturalEnd, connected := ["testGain"] }) ∧
    ((playTestTone now curG fG s).1.testGain =
      some { events := [GainEvent.setValueAtTime 0 now,
                        GainEvent.linearRampToValueAtTime (1/5) (now + 2/25),
                        GainEvent.setValueAtTime (1/5) (now + 44/5),
                        GainEvent.linearRampToValueAtTime 0 (now + 9)],
             connected := ["destination"] }) ∧
    ((playTestTone now curG fG s).1.testRunning = true) ∧
    ((playTestTone now curG fG s).1.genRunning = false) ∧
    ((playTestTone now curG fG s).1.activeAudio = true) ∧
    ((step (playTestTone now curG fG s).1 Ev.fireTestEnded).testRunning = false ∧
     (step (playTestTone now curG fG s).1 Ev.fireTestEnded).testOsc = none ∧
     (step (playTestTone now curG fG s).1 Ev.fireTestEnded).testGain = none ∧
     (step (playTestTone now curG fG s).1 Ev.fireTestEnded).activeAudio = false ∧
     (step (playTestTone now curG fG s).1 Ev.fireTestEnded).genRunning = false) := by
  obtain ⟨ctx, go, gg, gl, gr, tosc, tgn, tr, hz, aa, orp⟩ := s
  simp only at ht hg
  subst ht hg
  simp [playTestTone, step, fireCb]

/-- Claim C6 witness: the test tone from the initial state is active and its
end-of-playback notification returns the session to idle. -/
theorem spec_c6_test_tone_witness :
    (playTestTone 0 0 false initState).1.testRunning = true ∧
    (step (playTestTone 0 0 false initState).1 Ev.fireTestEnded).testRunning
      = false := by
  have h := spec_c6_test_tone 0 0 false initState rfl rfl
  obtain ⟨h1, h2, h3, h4, h5, ⟨h6, h7, h8, h9, h10⟩⟩ := h
  exact ⟨h3, h6⟩

/-! ### C7: the old source's stop is requested before the new start -/

/-- Claim C7: starting one source while the other is active first requests
the soft-stop of the active source and only then performs the start: the
action trace of `startGenerator` from a test-tone-active state is exactly
stop request of the test tone, then generator allocation, then generator
start (so the stop request strictly precedes the start transition), the
generator ends running and the test tone not; symmetrically for
`playTestTone` from a generator-active state.  Both hold for either outcome
of the soft-stop scheduling, and neither path raises an error (both
functions are total). -/
theorem spec_c7_stop_before_start (now curT curG : ℚ) (fT fG : Bool) (s : State)
    (oT : OscNode) (gT : GainNode) (oG : OscNode) (gG : GainNode) :
    (s.genRunning = false → s.testRunning = true → s.audioContext = true →
     s.testOsc = some oT → s.testGain = some gT →
      ((startGenerator now curT fT s).2 =
        [Action.stopRequested "test", Action.allocated "generator",
         Action.oscStarted "generator"] ∧
       (startGenerator now curT fT s).1.genRunning = true ∧
       (startGenerator now curT fT s).1.testRunning = false)) ∧
    (s.testRunning = false → s.genRunning = true → s.audioContext = true →
     s.genOsc = some oG → s.genGain = some gG →
      ((playTestTone now curG fG s).2 =
        [Action.stopRequested "generator", Action.allocated "test",
         Action.oscStarted "test"] ∧
       (playTestTone now curG fG s).1.testRunning = true ∧
       (playTestTone now curG fG s).1.genRunning = false)) := by
  obtain ⟨ctx, go, gg, gl, gr, tosc, tgn, tr, hz, aa, orp⟩ := s
  constructor
  · intro h1 h2 h3 h4 h5
    simp only at h1 h2 h3 h4 h5
    subst h1 h2 h3 h4 h5
    cases fT <;>
      simp [startGenerator, stopAllAudio, softStopNode, orphanOf]
  · intro h1 h2 h3 h4 h5
    simp only at h1 h2 h3 h4 h5
    subst h1 h2 h3 h4 h5
    cases fG <;>
      simp [playTestTone, stopGenerator, softStopNode, orphanOf]

/-- Claim C7 witness: the two traces at concrete active states. -/
theorem spec_c7_stop_before_start_witness :
    (startGenerator 0 (1/5) false testActiveState).2 =
      [Action.stopRequested "test", Action.allocated "generator",
       Action.oscStarted "generator"] ∧
    (playTestTone 0 (1/4) false genActiveState).2 =
      [Action.stopRequested "generator", Action.allocated "test",
       Action.oscStarted "test"] := by
  have h1 := (spec_c7_stop_before_start 0 (1/5) (1/4) false false
    testActiveState testOscSample testGainSample oscSample gainSample).1
    rfl rfl rfl rfl rfl
  have h2 := (spec_c7_stop_before_start 0 (1/5) (1/4) false false
    genActiveState testOscSample testGainSample oscSample gainSample).2
    rfl rfl rfl rfl rfl
  exact ⟨h1.1, h2.1⟩

/-! ### C8: panic stop from Idle is a no-op -/

/-- Claim C8: `stopAllAudio` invoked while both running flags are down — any
idle state, including the one before any audio context exists — changes none
of `genRunning`, `testRunning`, the held node references, the stored Hz, the
orphan list or the context; it requests no stop (empty action trace), raises
no error (the function is total), and repeating it, with any arguments, is
idempotent. -/
theorem spec_c8_panic_idle_noop (n1 n2 a1 b1 a2 b2 : ℚ) (f1 f2 f3 f4 : Bool)
    (s : State) (hg : s.genRunning = false) (ht : s.testRunning = false) :
    ((stopAllAudio n1 a1 b1 f1 f2 s).1.genRunning = s.genRunning ∧
     (stopAllAudio n1 a1 b1 f1 f2 s).1.testRunning = s.testRunning ∧
     (stopAllAudio n1 a1 b1 f1 f2 s).1.genOsc = s.genOsc ∧
     (stopAllAudio n1 a1 b1 f1 f2 s).1.genGain = s.genGain ∧
     (stopAllAudio n1 a1 b1 f1 f2 s).1.genLPF = s.genLPF ∧
     (stopAllAudio n1 a1 b1 f1 f2 s).1.testOsc = s.testOsc ∧
     (stopAllAudio n1 a1 b1 f1 f2 s).1.testGain = s.testGain ∧
     (stopAllAudio n1 a1 b1 f1 f2 s).1.currentHz = s.currentHz ∧
     (stopAllAudio n1 a1 b1 f1 f2 s).1.orphans = s.orphans ∧
     (stopAllAudio n1 a1 b1 f1 f2 s).1.audioContext = s.audioContext) ∧
    (stopAllAudio n2 a2 b2 f3 f4 (stopAllAudio n1 a1 b1 f1 f2 s).1).1 =
      (stopAllAudio n1 a1 b1 f1 f2 s).1 ∧
    (stopAllAudio n1 a1 b1 f1 f2 s).2 = [] := by
  obtain ⟨ctx, go, gg, gl, gr, tosc, tgn, tr, hz, aa, orp⟩ := s
  simp only at hg ht
  subst hg ht
  cases ctx <;> simp [stopAllAudio]

/-- Claim C8 witness: panic at the initial state changes no session state. -/
theorem spec_c8_panic_idle_noop_witness :
    (stopAllAudio 0 0 0 false false initState).1.genRunning
      = initState.genRunning ∧
    (stopAllAudio 0 0 0 false false initState).2 = [] := by
  have h := spec_c8_panic_idle_noop 0 1 0 0 0 0 false false false false
    initState rfl rfl
  exact ⟨h.1.1, h.2.2⟩

/-! ### C9: live frequency retargeting -/

/-- Claim C9: while the generator is active, `setHz(v)` retargets the live
oscillator toward the newly stored value with `setTargetAtTime(stored, now,
0.02)` — an exponential approach with time constant 0.02 s (20 ms), not an
instantaneous jump; with no generator active it touches no oscillator; and
in the scenario, starting the generator gives an oscillator whose frequency
is the stored Hz (30 when `currentHz = 30`), after which `setHz(45)` appends
exactly the smoothed retarget toward 45. -/
theorem spec_c9_setHz_live_retarget (v now now2 : ℚ) (s : State) (o : OscNode) :
    (s.genRunning = true → s.audioContext = true → s.genOsc = some o →
      (setHz v now s).genOsc = some { o with freqEvents := o.freqEvents ++
          [FreqEvent.setTargetAtTime ((clamp MIN_HZ MAX_HZ (jsRound v) : ℤ) : ℚ)
             now (1/50)] }) ∧
    (s.genRunning = false → (setHz v now s).genOsc = s.genOsc) ∧
    (s.genRunning = false → s.testRunning = false →
      ((startGenerator now 0 false s).1.genOsc.map OscNode.freqValue =
        some ((s.currentHz : ℚ)) ∧
       (setHz 45 now2 (startGenerator now 0 false s).1).genOsc.map
          OscNode.freqEvents = some [FreqEvent.setTargetAtTime 45 now2 (1/50)])) := by
  have h45 : (max MIN_HZ (min MAX_HZ (jsRound 45)) : ℤ) = 45 := by
    unfold MIN_HZ MAX_HZ jsRound; norm_num
  obtain ⟨ctx, go, gg, gl, gr, tosc, tgn, tr, hz, aa, orp⟩ := s
  refine ⟨?_, ?_, ?_⟩
  · intro h1 h2 h3
    simp only at h1 h2 h3
    subst h1 h2 h3
    simp [setHz, clamp]
  · intro h1
    simp only at h1
    subst h1
    simp [setHz]
  · intro h1 h2
    simp only at h1 h2
    subst h1 h2
    constructor
    · simp [startGenerator]
    · simp [startGenerator, setHz, h45]

/-- Claim C9 witness: retargeting at the concrete active generator, and the
start-then-retarget scenario from the initial state (stored Hz 30). -/
theorem spec_c9_setHz_live_retarget_witness :
    (setHz 45 1 genActiveState).genOsc =
      some { oscSample with freqEvents := oscSample.freqEvents ++
        [FreqEvent.setTargetAtTime ((clamp MIN_HZ MAX_HZ (jsRound 45) : ℤ) : ℚ)
           1 (1/50)] } ∧
    (startGenerator 0 0 false initState).1.genOsc.map OscNode.freqValue =
      some ((initState.currentHz : ℚ)) := by
  have h := spec_c9_setHz_live_retarget 45 1 2 genActiveState oscSample
  have h2 := spec_c9_setHz_live_retarget 45 0 2 initState oscSample
  exact ⟨h.1 rfl rfl rfl, (h2.2.2 rfl rfl).1⟩

end Basslab
